import Mathlib

/-!
Shallow embedding of the whatsapp-ai-agent conversational core:
the per-chat history store (src/services/chat-history.service.ts),
the context builder and topic extractor (src/services/ai.service.ts),
and the orchestrator's single-flight message handler
(ChatbotService.handleIncomingMessage).

JavaScript arrays are modelled as Lean lists, the conversation Map as an
insertion-ordered association list (JS Map iteration order), and numbers
that the code only ever uses as integers (timestamps, lengths, counts)
as Int or Nat.
-/

namespace WhatsAppAgent

/-- The message kind union from src/types/index.ts (field named type). -/
inductive MessageType where
  | text
  | image
  | video
  | audio
  | document
  | location
  | contact
deriving DecidableEq

/-- WhatsAppMessage record from src/types/index.ts. Optional fields
(groupId, senderName) are Option; a JS value of undefined is none. -/
structure WhatsAppMessage where
  id : String
  «from» : String
  «to» : String
  timestamp : Int
  type : MessageType
  content : String
  isGroup : Bool
  groupId : Option String
  senderName : Option String
deriving DecidableEq

/-- ChatHistory record from src/types/index.ts. -/
structure ChatHistory where
  chatId : String
  messages : List WhatsAppMessage
  lastUpdated : Int
deriving DecidableEq

/-- The chatHistories Map of ChatHistoryService, as an association list in
insertion order (JS Map preserves insertion order during iteration). -/
abbrev Store := List (String × ChatHistory)

/-- Map.get: first binding for the key, none when absent. -/
def mapGet (st : Store) (k : String) : Option ChatHistory :=
  match st with
  | [] => none
  | (k', v) :: rest => if k' = k then some v else mapGet rest k

/-- Map.set: overwrite in place when the key exists (JS Map keeps the
original insertion position), append at the end otherwise. -/
def mapSet (st : Store) (k : String) (v : ChatHistory) : Store :=
  match st with
  | [] => [(k, v)]
  | (k', v') :: rest => if k' = k then (k, v) :: rest else (k', v') :: mapSet rest k v

/-- JS arr.slice(-n) for a nonnegative integer n. JS normalises -0 to +0,
so slice(-0) is slice(0): the whole array. For n ≥ 1 it is the suffix of
length min n len. -/
def jsSliceNeg (n : Nat) (xs : List α) : List α :=
  if n = 0 then xs else xs.drop (xs.length - n)

/-- The suffix of length min n len, i.e. the last n elements in order. -/
def lastN (n : Nat) (xs : List α) : List α :=
  xs.drop (xs.length - n)

/-- Whether needle is a leading segment of hay (over characters). -/
def charsPrefix : List Char → List Char → Bool
  | [], _ => true
  | _ :: _, [] => false
  | a :: as, b :: bs => a == b && charsPrefix as bs

/-- Whether needle occurs contiguously anywhere in hay. -/
def charsInfix (needle : List Char) : List Char → Bool
  | [] => charsPrefix needle []
  | b :: bs => charsPrefix needle (b :: bs) || charsInfix needle bs

/-- JS String.prototype.includes: substring containment. -/
def jsIncludes (s needle : String) : Bool :=
  charsInfix needle.data s.data

/-- The ASCII whitespace characters relevant to the message bodies this
code trims and JS String.prototype.trim removes. -/
def jsIsSpace (c : Char) : Bool :=
  c == ' ' || c == '\t' || c == '\n' || c == '\r'

/-- JS String.prototype.trim: strip leading and trailing whitespace. -/
def jsTrim (s : String) : String :=
  ⟨((s.data.dropWhile jsIsSpace).reverse.dropWhile jsIsSpace).reverse⟩

/-- JS String.prototype.toLowerCase over the code points appearing here. -/
def jsToLower (s : String) : String :=
  ⟨s.data.map Char.toLower⟩

/-- JS String.prototype.split with separator a single space: cut at every
space, keeping empty pieces (the empty string yields one empty piece). -/
def splitSpaceChars : List Char → List Char → List String
  | [], acc => [⟨acc.reverse⟩]
  | c :: rest, acc =>
      if c == ' ' then (⟨acc.reverse⟩ : String) :: splitSpaceChars rest []
      else splitSpaceChars rest (c :: acc)

/-- JS s.split(' '). -/
def jsSplitSpace (s : String) : List String :=
  splitSpaceChars s.data []

/-- ChatHistoryService.addMessage: get-or-create the entry, push the
message, trim with slice(-maxHistoryLength) when the length exceeds the
configured maximum, and stamp lastUpdated with the current time. The two
Date.now() reads inside one call are modelled as the single instant now. -/
def addMessage (maxHistoryLength : Nat) (now : Int) (st : Store)
    (chatId : String) (message : WhatsAppMessage) : Store :=
  match mapGet st chatId with
  | none =>
      let pushed := [message]
      let trimmed := if pushed.length > maxHistoryLength
        then jsSliceNeg maxHistoryLength pushed else pushed
      mapSet st chatId ⟨chatId, trimmed, now⟩
  | some ch =>
      let pushed := ch.messages ++ [message]
      let trimmed := if pushed.length > maxHistoryLength
        then jsSliceNeg maxHistoryLength pushed else pushed
      mapSet st chatId ⟨ch.chatId, trimmed, now⟩

/-- ChatHistoryService.getChatHistory: a copy of the stored messages, or
the empty array when the chat is unknown. -/
def getChatHistory (st : Store) (chatId : String) : List WhatsAppMessage :=
  match mapGet st chatId with
  | some ch => ch.messages
  | none => []

/-- ChatHistoryService.getRecentMessages: messages.slice(-count). -/
def getRecentMessages (st : Store) (chatId : String) (count : Nat := 10) :
    List WhatsAppMessage :=
  jsSliceNeg count (getChatHistory st chatId)

/-- ChatHistoryService.getConversationContext: messages.slice(-maxMessages). -/
def getConversationContext (st : Store) (chatId : String) (maxMessages : Nat := 10) :
    List WhatsAppMessage :=
  jsSliceNeg maxMessages (getChatHistory st chatId)

/-- ChatHistoryService.clearChatHistory: Map.delete. -/
def clearChatHistory (st : Store) (chatId : String) : Store :=
  st.filter (fun e => !(e.1 = chatId : Bool))

/-- Result record of ChatHistoryService.getChatHistoryStats; the JS value
null for lastMessageTime is none. -/
structure ChatHistoryStats where
  totalMessages : Nat
  lastMessageTime : Option Int
  averageMessageLength : Nat
deriving DecidableEq

/-- Math.round(total / len) for len > 0: round half up on the exact
rational quotient, i.e. floor of (2*total + len) / (2*len). -/
def jsRoundDiv (total len : Nat) : Nat :=
  (2 * total + len) / (2 * len)

/-- ChatHistoryService.getChatHistoryStats: the all-zero/empty record when
the history is empty, else count, max timestamp and rounded average body
length. -/
def getChatHistoryStats (st : Store) (chatId : String) : ChatHistoryStats :=
  let messages := getChatHistory st chatId
  if messages.length = 0 then
    ⟨0, none, 0⟩
  else
    let totalLength := (messages.map (fun m => m.content.length)).sum
    ⟨messages.length,
     (messages.map (fun m => m.timestamp)).max?,
     jsRoundDiv totalLength messages.length⟩

/-- ChatHistoryService.searchMessages: case-insensitive substring filter
over bodies, original order. -/
def searchMessages (st : Store) (chatId : String) (query : String) :
    List WhatsAppMessage :=
  (getChatHistory st chatId).filter
    (fun m => jsIncludes (jsToLower m.content) (jsToLower query))

/-- ChatHistoryService.cleanupOldHistories: walk the entries, delete every
conversation whose lastUpdated is strictly before the cutoff, count the
deletions. -/
def cleanupLoop (cutoff : Int) : Store → Nat × Store
  | [] => (0, [])
  | e :: rest =>
      let r := cleanupLoop cutoff rest
      if e.2.lastUpdated < cutoff then (r.1 + 1, r.2) else (r.1, e :: r.2)

/-- ChatHistoryService.cleanupOldHistories with its cutoff computation
now - daysOld*24*60*60*1000; returns the count removed and the surviving
store. -/
def cleanupOldHistories (now : Int) (daysOld : Nat) (st : Store) : Nat × Store :=
  let cutoffTime : Int := now - (daysOld * 24 * 60 * 60 * 1000 : Nat)
  cleanupLoop cutoffTime st

/-! AIService (src/services/ai.service.ts): context builder and topic
extractor. Both are pure functions of a message-list snapshot. -/

/-- The role tag of a dialogue turn sent to the generator. -/
inductive Role where
  | user
  | assistant
deriving DecidableEq

/-- One role-tagged dialogue turn. -/
structure ContextEntry where
  role : Role
  content : String
deriving DecidableEq

/-- The literal the role test of AIService.buildConversationContext looks
for inside a message's from field. -/
def botJidMarker : String := "@s.whatsapp.net"

/-- AIService.buildConversationContext: take the last 10 messages, tag
each assistant when its from field contains the individual-JID marker
(the transport identity shape bot replies are recorded under) and user
otherwise, and push only turns whose body is non-empty after trim. -/
def buildConversationContext (chatHistory : List WhatsAppMessage) :
    List ContextEntry :=
  let recentHistory := jsSliceNeg 10 chatHistory
  recentHistory.foldl
    (fun context msg =>
      let role := if jsIncludes msg.«from» botJidMarker
        then Role.assistant else Role.user
      let content := msg.content
      if jsTrim content ≠ "" then context ++ [⟨role, content⟩] else context)
    []

/-- The stop-word array of AIService.isCommonWord, verbatim, duplicates
included. -/
def commonWords : List String :=
  ["the", "and", "or", "but", "in", "on", "at", "to", "for", "of", "with",
   "by", "is", "are", "was", "were", "be", "been", "have", "has", "had",
   "do", "does", "did", "will", "would", "could", "should", "may", "might",
   "can", "this", "that", "these", "those", "i", "you", "he", "she", "it",
   "we", "they", "me", "him", "her", "us", "them", "my", "your", "his",
   "her", "its", "our", "their", "mine", "yours", "his", "hers", "ours",
   "theirs", "a", "an", "the", "and", "or", "but", "if", "then", "else",
   "when", "at", "from", "up", "about", "into", "through", "during",
   "before", "after", "above", "below", "between", "among", "under",
   "over", "inside", "outside", "within", "without", "against", "toward",
   "towards", "upon", "across", "behind", "beneath", "beside", "beyond",
   "inside", "near", "off", "out", "outside", "over", "past", "since",
   "through", "throughout", "to", "toward", "under", "underneath", "until",
   "up", "upon", "with", "within", "without"]

/-- AIService.isCommonWord: membership in the stop-word array. -/
def isCommonWord (word : String) : Bool :=
  commonWords.contains word

/-- AIService.extractContext: over the last 5 messages, lowercase the body,
split on the space character, push every token longer than 3 characters
that is not a stop word, and finally slice(0, 5). -/
def extractContext (chatHistory : List WhatsAppMessage) : List String :=
  let recentMessages := jsSliceNeg 5 chatHistory
  let topics := recentMessages.foldl
    (fun topics msg =>
      let words := jsSplitSpace (jsToLower msg.content)
      topics ++ words.filter (fun word => word.length > 3 && !isCommonWord word))
    []
  topics.take 5

/-! Export/import (ChatHistoryService.exportChatHistory /
importChatHistory). The JSON text layer is modelled at the level of JSON
trees: JSON.stringify of a ChatHistory value is the encoding below
(stringify omits object keys whose value is undefined), and JSON.parse of
an exported blob yields the same tree back, so the blob type here is the
tree itself. All numeric fields the service stores are integer epoch
milliseconds, so JSON numbers are modelled as Int. -/

/-- A JSON value. -/
inductive Json where
  | null
  | bool (b : Bool)
  | num (n : Int)
  | str (s : String)
  | arr (elems : List Json)
  | obj (fields : List (String × Json))

/-- Field lookup on a JSON object; none for absent keys or non-objects
(JS property access on a parsed non-object yields undefined). -/
def jsonField (j : Json) (k : String) : Option Json :=
  match j with
  | Json.obj fields => lookupField fields
  | _ => none
where
  lookupField : List (String × Json) → Option Json
    | [] => none
    | (k', v) :: rest => if k' = k then some v else lookupField rest

/-- String view of a JSON value. -/
def Json.asStr : Json → Option String
  | Json.str s => some s
  | _ => none

/-- Integer view of a JSON value. -/
def Json.asNum : Json → Option Int
  | Json.num n => some n
  | _ => none

/-- Boolean view of a JSON value. -/
def Json.asBool : Json → Option Bool
  | Json.bool b => some b
  | _ => none

/-- Array view of a JSON value. -/
def Json.asArr : Json → Option (List Json)
  | Json.arr xs => some xs
  | _ => none

/-- The wire spelling of each message kind. -/
def messageTypeString : MessageType → String
  | MessageType.text => "text"
  | MessageType.image => "image"
  | MessageType.video => "video"
  | MessageType.audio => "audio"
  | MessageType.document => "document"
  | MessageType.location => "location"
  | MessageType.contact => "contact"

/-- Parse a message kind back from its wire spelling. -/
def parseMessageType (s : String) : Option MessageType :=
  if s = "text" then some MessageType.text
  else if s = "image" then some MessageType.image
  else if s = "video" then some MessageType.video
  else if s = "audio" then some MessageType.audio
  else if s = "document" then some MessageType.document
  else if s = "location" then some MessageType.location
  else if s = "contact" then some MessageType.contact
  else none

/-- JSON.stringify of one WhatsAppMessage: keys in declaration order, keys
whose value is undefined omitted. -/
def encodeMessage (m : WhatsAppMessage) : Json :=
  Json.obj
    ([("id", Json.str m.id),
      ("from", Json.str m.«from»),
      ("to", Json.str m.«to»),
      ("timestamp", Json.num m.timestamp),
      ("type", Json.str (messageTypeString m.type)),
      ("content", Json.str m.content),
      ("isGroup", Json.bool m.isGroup)]
     ++ (match m.groupId with
         | some g => [("groupId", Json.str g)]
         | none => [])
     ++ (match m.senderName with
         | some s => [("senderName", Json.str s)]
         | none => []))

/-- JSON.stringify of one ChatHistory. -/
def encodeChatHistory (ch : ChatHistory) : Json :=
  Json.obj
    [("chatId", Json.str ch.chatId),
     ("messages", Json.arr (ch.messages.map encodeMessage)),
     ("lastUpdated", Json.num ch.lastUpdated)]

/-- Read an optional string-valued key: absent is none, a string is some,
any other value is malformed. -/
def decodeOptStr (j : Json) (k : String) : Option (Option String) :=
  match jsonField j k with
  | none => some none
  | some (Json.str s) => some (some s)
  | some _ => none

/-- Read one message back out of a parsed JSON value. -/
def decodeMessage (j : Json) : Option WhatsAppMessage := do
  let id ← (jsonField j "id").bind Json.asStr
  let «from» ← (jsonField j "from").bind Json.asStr
  let «to» ← (jsonField j "to").bind Json.asStr
  let timestamp ← (jsonField j "timestamp").bind Json.asNum
  let typeStr ← (jsonField j "type").bind Json.asStr
  let type ← parseMessageType typeStr
  let content ← (jsonField j "content").bind Json.asStr
  let isGroup ← (jsonField j "isGroup").bind Json.asBool
  let groupId ← decodeOptStr j "groupId"
  let senderName ← decodeOptStr j "senderName"
  pure ⟨id, «from», «to», timestamp, type, content, isGroup, groupId, senderName⟩

/-- Read a message array back out of parsed JSON values. -/
def decodeMessages : List Json → Option (List WhatsAppMessage)
  | [] => some []
  | j :: rest =>
      match decodeMessage j, decodeMessages rest with
      | some m, some ms => some (m :: ms)
      | _, _ => none

/-- Read a whole ChatHistory back out of a parsed JSON value. -/
def decodeChatHistory (j : Json) : Option ChatHistory := do
  let chatId ← (jsonField j "chatId").bind Json.asStr
  let msgsJson ← (jsonField j "messages").bind Json.asArr
  let messages ← decodeMessages msgsJson
  let lastUpdated ← (jsonField j "lastUpdated").bind Json.asNum
  pure ⟨chatId, messages, lastUpdated⟩

/-- ChatHistoryService.exportChatHistory: JSON.stringify of the stored
record, null (none) when the chat is unknown. -/
def exportChatHistory (st : Store) (chatId : String) : Option Json :=
  (mapGet st chatId).map encodeChatHistory

/-- ChatHistoryService.importChatHistory: parse the blob, reject (returning
false, store untouched) when the embedded chatId differs from the target or
the payload does not carry the recorded shape, otherwise install the decoded
record under the target key and return true. -/
def importChatHistory (st : Store) (chatId : String) (blob : Json) :
    Bool × Store :=
  match decodeChatHistory blob with
  | none => (false, st)
  | some ch =>
      if ch.chatId ≠ chatId then (false, st)
      else (true, mapSet st chatId ch)

/-! Orchestrator (ChatbotService.handleIncomingMessage). The async
control flow is embedded as a pure step function: the external effects of
one invocation are recorded as an ordered action trace, the generator and
the transport are oracles (the generator either throws — caught inside
processMessage and surfaced as a failed outcome — or yields reply text;
sendMessage resolves to a boolean), and an exception escaping the try
body to the outer catch is a further oracle. Every branch ends with the
busy flag value the finally block leaves behind. -/

/-- The externally visible steps of one handleIncomingMessage run, in
program order. -/
inductive Action where
  | messageReceivedEvent
  | historyAppend
  | contextBuild
  | generateCall
  | aiGeneratedEvent
  | sendCall
  | botHistoryAppend
  | messageSentEvent
  | errorEvent
deriving DecidableEq

/-- The bot reply Message the orchestrator synthesizes after a successful
send: id prefixed bot-, from the bot leg (the inbound to), addressed to
the inbound from. -/
def botReplyMessage (m : WhatsAppMessage) (now : Int) (replyText : String) :
    WhatsAppMessage :=
  ⟨"bot-" ++ toString now, m.«to», m.«from», now, MessageType.text, replyText,
   m.isGroup, m.groupId, some "AI Assistant"⟩

/-- ChatbotService.handleIncomingMessage. State is the busy flag plus the
history store; the result is the post-call busy flag, store, and action
trace. When busy, the call returns at once: nothing is appended, no
context is built, no generation or send happens, and the flag keeps its
value. Otherwise the flag is set, the try body runs (receive event,
history append, context build, generation, and on success the delayed
send, bot append and sent event; failures publish an error event), an
exception escaping the try body is caught and published as an error
event, and the finally block clears the flag on every one of these exit
paths. -/
def handleIncomingMessage (maxHistoryLength : Nat) (now : Int)
    (busy : Bool) (st : Store) (m : WhatsAppMessage)
    (receivedEventThrows : Bool)
    (generate : String → List WhatsAppMessage → Except String String)
    (sendDelivers : String → String → Bool) :
    Bool × Store × List Action :=
  if busy then (busy, st, [])
  else if receivedEventThrows then
    -- outer catch publishes the error; finally clears the flag
    (false, st, [Action.errorEvent])
  else
    let st1 := addMessage maxHistoryLength now st m.«to» m
    let chatHistory := getConversationContext st1 m.«to» 10
    match generate m.content chatHistory with
    | Except.error _ =>
        -- processMessage catches the throw and reports a failed outcome;
        -- the handler publishes an error event
        (false, st1,
         [Action.messageReceivedEvent, Action.historyAppend,
          Action.contextBuild, Action.generateCall, Action.errorEvent])
    | Except.ok replyText =>
        if sendDelivers m.«from» replyText then
          let st2 := addMessage maxHistoryLength now st1 m.«to»
            (botReplyMessage m now replyText)
          (false, st2,
           [Action.messageReceivedEvent, Action.historyAppend,
            Action.contextBuild, Action.generateCall,
            Action.aiGeneratedEvent, Action.sendCall,
            Action.botHistoryAppend, Action.messageSentEvent])
        else
          -- send failure is only logged; no bot append, no sent event
          (false, st1,
           [Action.messageReceivedEvent, Action.historyAppend,
            Action.contextBuild, Action.generateCall,
            Action.aiGeneratedEvent, Action.sendCall])

/-! Concrete fixtures used by witnesses, counterexamples and scenario
conjuncts. -/

/-- A plain inbound text message from a counterparty. -/
def demoMsg (id : String) (ts : Int) (content : String) : WhatsAppMessage :=
  ⟨id, "user1@c.us", "bot@c.us", ts, MessageType.text, content, false, none, none⟩

/-- A store holding one conversation with a single message. -/
def demoStore1 : Store :=
  addMessage 50 0 [] "chat" (demoMsg "m1" 1 "A")

/-- A 12-message history whose fifth message has an empty body. -/
def demo12 : List WhatsAppMessage :=
  [demoMsg "m1" 1 "t one", demoMsg "m2" 2 "t two", demoMsg "m3" 3 "t three",
   demoMsg "m4" 4 "t four", demoMsg "m5" 5 "", demoMsg "m6" 6 "t six",
   demoMsg "m7" 7 "t seven", demoMsg "m8" 8 "t eight", demoMsg "m9" 9 "t nine",
   demoMsg "m10" 10 "t ten", demoMsg "m11" 11 "t eleven", demoMsg "m12" 12 "t twelve"]

/-! Helper lemmas about the association-list map and the JS slice model. -/

theorem mapGet_mapSet_self (st : Store) (k : String) (v : ChatHistory) :
    mapGet (mapSet st k v) k = some v := by
  induction st with
  | nil => simp [mapSet, mapGet]
  | cons e rest ih =>
      obtain ⟨k', v'⟩ := e
      by_cases h : k' = k
      · simp [mapSet, mapGet, h]
      · simp [mapSet, mapGet, h, ih]

theorem jsSliceNeg_of_pos {n : Nat} (hn : 1 ≤ n) (xs : List α) :
    jsSliceNeg n xs = lastN n xs := by
  unfold jsSliceNeg lastN
  rw [if_neg (by omega)]

theorem jsSliceNeg_nil (n : Nat) : jsSliceNeg n ([] : List α) = [] := by
  unfold jsSliceNeg
  split <;> simp

theorem lastN_of_le {n : Nat} {xs : List α} (h : xs.length ≤ n) :
    lastN n xs = xs := by
  unfold lastN
  rw [Nat.sub_eq_zero_of_le h, List.drop_zero]

theorem lastN_length (n : Nat) (xs : List α) :
    (lastN n xs).length = min n xs.length := by
  unfold lastN
  rw [List.length_drop]
  omega

theorem lastN_append_one {L : Nat} (hL : 1 ≤ L) (ys : List α) (m : α) :
    lastN L (ys ++ [m]) = ys.drop (ys.length + 1 - L) ++ [m] := by
  unfold lastN
  have hlen : (ys ++ [m]).length = ys.length + 1 := by simp
  rw [hlen]
  exact List.drop_append_of_le_length (by omega)

theorem lastN_append_singleton {L : Nat} (hL : 1 ≤ L) (xs : List α) (m : α) :
    lastN L (lastN L xs ++ [m]) = lastN L (xs ++ [m]) := by
  rcases Nat.lt_or_ge xs.length L with h | h
  · rw [lastN_of_le (Nat.le_of_lt h)]
  · rw [lastN_append_one hL, lastN_append_one hL]
    congr 1
    have hlen : (lastN L xs).length = L := by rw [lastN_length]; omega
    rw [hlen]
    have h1 : L + 1 - L = 1 := by omega
    rw [h1]
    unfold lastN
    rw [List.drop_drop]
    congr 1
    omega

/-- One addMessage step leaves, for a positive configured maximum, exactly
the last L of the previously stored messages extended by the new one. -/
theorem getChatHistory_addMessage {L : Nat} (hL : 1 ≤ L) (now : Int)
    (st : Store) (c : String) (m : WhatsAppMessage) :
    getChatHistory (addMessage L now st c m) c
      = lastN L (getChatHistory st c ++ [m]) := by
  cases hget : mapGet st c with
  | none =>
      have hcase : addMessage L now st c m = mapSet st c ⟨c, [m], now⟩ := by
        unfold addMessage
        rw [hget]
        have : ¬ ([m].length > L) := by simp; omega
        simp only [this, if_false]
      rw [hcase]
      unfold getChatHistory
      rw [mapGet_mapSet_self, hget]
      simp only [List.nil_append]
      exact (lastN_of_le (by simp; omega)).symm
  | some ch =>
      have hcase : addMessage L now st c m
          = mapSet st c ⟨ch.chatId, lastN L (ch.messages ++ [m]), now⟩ := by
        unfold addMessage
        rw [hget]
        by_cases hgt : (ch.messages ++ [m]).length > L
        · simp only [hgt, if_true, jsSliceNeg_of_pos hL]
        · simp only [hgt, if_false]
          rw [lastN_of_le (by omega)]
      rw [hcase]
      unfold getChatHistory
      rw [mapGet_mapSet_self, hget]

/-! Claim C2: bounded sliding-window history. -/

/-- C2 counterexample: with configured maximum length 0, one append leaves
a history of length 1, because the trim step slice(-0) is slice(0) in JS
and keeps the whole array; the claimed bound len ≤ L fails at L = 0. -/
theorem claim_C2_counterexample :
    ¬ ((getChatHistory (addMessage 0 0 [] "chat" (demoMsg "m1" 1 "A")) "chat").length ≤ 0) := by
  decide

/-- C2 (amended: the configured maximum length L must be positive): for
every sequence of append calls on one conversation, the stored history is
exactly the last L appended messages in arrival order — quantifying over
all append sequences covers the state after every call — and in
particular its length never exceeds L. -/
theorem claim_C2_bounded_window (L : Nat) (hL : 1 ≤ L) (now : Int) (c : String)
    (msgs : List WhatsAppMessage) :
    getChatHistory (msgs.foldl (fun st m => addMessage L now st c m) []) c = lastN L msgs
  ∧ (getChatHistory (msgs.foldl (fun st m => addMessage L now st c m) []) c).length ≤ L := by
  have main : ∀ ms : List WhatsAppMessage,
      getChatHistory (ms.foldl (fun st m => addMessage L now st c m) []) c = lastN L ms := by
    intro ms
    induction ms using List.reverseRecOn with
    | nil => simp [lastN, getChatHistory, mapGet]
    | append_singleton ms m ih =>
        rw [List.foldl_append]
        simp only [List.foldl_cons, List.foldl_nil]
        rw [getChatHistory_addMessage hL, ih, lastN_append_singleton hL]
  refine ⟨main msgs, ?_⟩
  rw [main msgs, lastN_length]
  omega

/-- C2 witness: with maximum length 3, appending A, B, C, D in order
yields exactly the history B, C, D. -/
theorem claim_C2_bounded_window_witness :
    getChatHistory (List.foldl (fun st m => addMessage 3 0 st "chat" m) []
        [demoMsg "m1" 1 "A", demoMsg "m2" 2 "B", demoMsg "m3" 3 "C", demoMsg "m4" 4 "D"]) "chat"
      = [demoMsg "m2" 2 "B", demoMsg "m3" 3 "C", demoMsg "m4" 4 "D"] :=
  ((claim_C2_bounded_window 3 (by decide) 0 "chat"
      [demoMsg "m1" 1 "A", demoMsg "m2" 2 "B", demoMsg "m3" 3 "C", demoMsg "m4" 4 "D"]).1).trans
    (by decide)

/-! Claim C4: recent messages are the tail of the stored history. -/

/-- C4 counterexample: at n = 0 the claim demands the last min(0, len) = 0
messages, but getRecentMessages uses slice(-count) and JS slice(-0) is
slice(0), so a one-message history is returned whole. -/
theorem claim_C4_counterexample :
    getRecentMessages demoStore1 "chat" 0 = [demoMsg "m1" 1 "A"]
  ∧ ¬ ((getRecentMessages demoStore1 "chat" 0).length
        = min 0 (getChatHistory demoStore1 "chat").length) := by
  decide

/-- C4 (amended: for every n ≥ 1): getRecentMessages returns exactly the
last min(n, len) stored messages in original order, and for an unknown
chatId it returns the empty sequence for every n. -/
theorem claim_C4_recent_tail (st : Store) (c : String) (n : Nat) :
    (1 ≤ n →
      getRecentMessages st c n = lastN n (getChatHistory st c)
      ∧ (getRecentMessages st c n).length = min n (getChatHistory st c).length)
  ∧ (mapGet st c = none → getRecentMessages st c n = []) := by
  constructor
  · intro hn
    constructor
    · unfold getRecentMessages
      exact jsSliceNeg_of_pos hn _
    · unfold getRecentMessages
      rw [jsSliceNeg_of_pos hn, lastN_length]
  · intro h
    unfold getRecentMessages getChatHistory
    rw [h]
    exact jsSliceNeg_nil n

/-- C4 witness: on a one-message history, getRecentMessages with n = 1
returns that tail, and on an unknown chatId it returns the empty list. -/
theorem claim_C4_recent_tail_witness :
    (getRecentMessages demoStore1 "chat" 1 = lastN 1 (getChatHistory demoStore1 "chat")
      ∧ (getRecentMessages demoStore1 "chat" 1).length
          = min 1 (getChatHistory demoStore1 "chat").length)
  ∧ getRecentMessages [] "chat" 7 = [] :=
  ⟨(claim_C4_recent_tail demoStore1 "chat" 1).1 (by decide),
   (claim_C4_recent_tail [] "chat" 7).2 rfl⟩

/-! Claim C8: age-based eviction. -/

/-- The recursive sweep keeps exactly the entries at or after the cutoff,
in order, and counts the deleted ones. -/
theorem cleanupLoop_spec (cutoff : Int) (st : Store) :
    cleanupLoop cutoff st
      = ((st.filter (fun e => e.2.lastUpdated < cutoff)).length,
         st.filter (fun e => !(e.2.lastUpdated < cutoff : Bool))) := by
  induction st with
  | nil => rfl
  | cons e rest ih =>
      unfold cleanupLoop
      rw [ih]
      by_cases h : e.2.lastUpdated < cutoff
      · simp [h]
      · simp [h]

/-- C8: cleanupOldHistories removes exactly the conversations whose
lastUpdated is strictly before now minus the age window (daysOld in
milliseconds), leaves every other conversation's entry unchanged and in
place, and returns the number of conversations removed. -/
theorem claim_C8_evict_older (now : Int) (daysOld : Nat) (st : Store) :
    (cleanupOldHistories now daysOld st).2
      = st.filter (fun e =>
          !(e.2.lastUpdated < now - (daysOld * 24 * 60 * 60 * 1000 : Nat) : Bool))
  ∧ (cleanupOldHistories now daysOld st).1
      = (st.filter (fun e =>
          e.2.lastUpdated < now - (daysOld * 24 * 60 * 60 * 1000 : Nat))).length := by
  unfold cleanupOldHistories
  rw [cleanupLoop_spec]
  exact ⟨rfl, rfl⟩

/-! Claim C9: stats on an unknown conversation. -/

/-- C9: for a chatId with no stored history, getChatHistoryStats returns
the record with zero messages, no last-message time and zero average
length, and in particular does not fail. -/
theorem claim_C9_stats_empty (st : Store) (chatId : String)
    (h : mapGet st chatId = none) :
    getChatHistoryStats st chatId = ⟨0, none, 0⟩ := by
  unfold getChatHistoryStats getChatHistory
  rw [h]
  rfl

/-- C9 witness: stats on an empty store. -/
theorem claim_C9_stats_empty_witness :
    getChatHistoryStats [] "nobody" = ⟨0, none, 0⟩ :=
  claim_C9_stats_empty [] "nobody" rfl

/-! Claim C3: dialogue-turn construction. -/

/-- The per-message selection the context builder applies: drop a message
whose body trims to empty, otherwise tag it assistant exactly when its
from field carries the individual-JID marker the bot replies are recorded
under, and user otherwise. -/
def dialogueTurn (msg : WhatsAppMessage) : Option ContextEntry :=
  if jsTrim msg.content = "" then none
  else some ⟨if jsIncludes msg.«from» botJidMarker then Role.assistant else Role.user,
             msg.content⟩

/-- Folding the push-if-nonblank step is an order-preserving filterMap. -/
theorem foldl_push_dialogueTurn :
    ∀ (l : List WhatsAppMessage) (acc : List ContextEntry),
      l.foldl
        (fun context msg =>
          let role := if jsIncludes msg.«from» botJidMarker
            then Role.assistant else Role.user
          let content := msg.content
          if jsTrim content ≠ "" then context ++ [⟨role, content⟩] else context)
        acc
      = acc ++ l.filterMap dialogueTurn := by
  intro l
  induction l with
  | nil => simp
  | cons a l ih =>
      intro acc
      rw [List.foldl_cons, ih, List.filterMap_cons]
      by_cases h : jsTrim a.content = "" <;>
        simp [dialogueTurn, h]

/-- C3: buildConversationContext selects the last 10 messages, drops every
selected message whose body is empty or whitespace-only after trimming,
preserves the oldest-first order, and tags each remaining turn assistant
exactly when its from field carries the bot-identity JID marker, user
otherwise; on the 12-message history whose fifth message has an empty
body, the output has exactly 9 entries. -/
theorem claim_C3_dialogue_turns :
    (∀ msgs : List WhatsAppMessage,
      buildConversationContext msgs = (jsSliceNeg 10 msgs).filterMap dialogueTurn)
  ∧ (buildConversationContext demo12).length = 9 := by
  constructor
  · intro msgs
    unfold buildConversationContext
    rw [foldl_push_dialogueTurn]
    simp
  · decide

/-! Claim C7: topic extraction bounds. -/

/-- Membership in a fold that only ever appends per-element contributions
comes from the seed or from some element's contribution. -/
theorem mem_foldl_append {α β : Type} (g : α → List β) :
    ∀ (l : List α) (acc : List β) (x : β),
      x ∈ l.foldl (fun acc a => acc ++ g a) acc → x ∈ acc ∨ ∃ a, a ∈ l ∧ x ∈ g a := by
  intro l
  induction l with
  | nil => intro acc x h; exact Or.inl h
  | cons a l ih =>
      intro acc x h
      rcases ih (acc ++ g a) x h with h' | h'
      · rcases List.mem_append.mp h' with h'' | h''
        · exact Or.inl h''
        · exact Or.inr ⟨a, List.mem_cons_self a l, h''⟩
      · rcases h' with ⟨b, hb, hx⟩
        exact Or.inr ⟨b, List.mem_cons_of_mem a hb, hx⟩

/-- C7: extractContext returns at most 5 topics, each strictly longer than
3 characters and none of them a stop word. -/
theorem claim_C7_topics (msgs : List WhatsAppMessage) :
    (extractContext msgs).length ≤ 5
  ∧ ∀ w ∈ extractContext msgs, 3 < w.length ∧ isCommonWord w = false := by
  constructor
  · show (List.take 5 _).length ≤ 5
    rw [List.length_take]
    omega
  · intro w hw
    have hw' : w ∈ (jsSliceNeg 5 msgs).foldl
        (fun topics msg =>
          topics ++ (jsSplitSpace (jsToLower msg.content)).filter
            (fun word => word.length > 3 && !isCommonWord word))
        [] :=
      List.mem_of_mem_take hw
    rcases mem_foldl_append _ _ _ _ hw' with h | ⟨a, _, hx⟩
    · cases h
    · have hpred := (List.mem_filter.mp hx).2
      rw [Bool.and_eq_true] at hpred
      refine ⟨of_decide_eq_true hpred.1, ?_⟩
      have := hpred.2
      rwa [Bool.not_eq_true'] at this

/-- C7 witness: a concrete history producing the topic hello within the
bounds. -/
theorem claim_C7_topics_witness :
    (extractContext [demoMsg "m1" 1 "hello there"]).length ≤ 5
  ∧ (3 < "hello".length ∧ isCommonWord "hello" = false) :=
  ⟨(claim_C7_topics [demoMsg "m1" 1 "hello there"]).1,
   (claim_C7_topics [demoMsg "m1" 1 "hello there"]).2 "hello" (by decide)⟩

/-! Claims C5, C6, C10: export/import. -/

/-- Decoding inverts the message encoding. -/
theorem decodeMessage_encodeMessage (m : WhatsAppMessage) :
    decodeMessage (encodeMessage m) = some m := by
  rcases m with ⟨id, f, t, ts, ty, co, ig, gid, sn⟩
  rcases gid with _ | g <;> rcases sn with _ | s <;> rcases ty <;> rfl

/-- Decoding inverts the message-array encoding. -/
theorem decodeMessages_map (ms : List WhatsAppMessage) :
    decodeMessages (ms.map encodeMessage) = some ms := by
  induction ms with
  | nil => rfl
  | cons m ms ih => simp [decodeMessages, decodeMessage_encodeMessage, ih]

/-- Decoding inverts the conversation encoding. -/
theorem decodeChatHistory_encodeChatHistory (ch : ChatHistory) :
    decodeChatHistory (encodeChatHistory ch) = some ch := by
  rcases ch with ⟨cid, msgs, lu⟩
  unfold decodeChatHistory
  rw [show (jsonField (encodeChatHistory ⟨cid, msgs, lu⟩) "chatId").bind Json.asStr
        = some cid from rfl]
  rw [show (jsonField (encodeChatHistory ⟨cid, msgs, lu⟩) "messages").bind Json.asArr
        = some (msgs.map encodeMessage) from rfl]
  rw [show (jsonField (encodeChatHistory ⟨cid, msgs, lu⟩) "lastUpdated").bind Json.asNum
        = some lu from rfl]
  simp only [Option.bind_eq_bind, Option.some_bind]
  rw [decodeMessages_map]
  simp only [Option.some_bind, Option.pure_def]

/-- A successfully decoded conversation carries exactly the blob's
embedded chatId field. -/
theorem decodeChatHistory_chatId {blob : Json} {ch : ChatHistory}
    (h : decodeChatHistory blob = some ch) :
    (jsonField blob "chatId").bind Json.asStr = some ch.chatId := by
  unfold decodeChatHistory at h
  cases h1 : (jsonField blob "chatId").bind Json.asStr with
  | none => rw [h1] at h; simp at h
  | some s =>
      rw [h1] at h
      simp only [Option.bind_eq_bind, Option.some_bind] at h
      cases h2 : (jsonField blob "messages").bind Json.asArr with
      | none => rw [h2] at h; simp at h
      | some arr =>
          rw [h2] at h
          simp only [Option.some_bind] at h
          cases h3 : decodeMessages arr with
          | none => rw [h3] at h; simp at h
          | some ms =>
              rw [h3] at h
              simp only [Option.some_bind] at h
              cases h4 : (jsonField blob "lastUpdated").bind Json.asNum with
              | none => rw [h4] at h; simp at h
              | some lu =>
                  rw [h4] at h
                  simp only [Option.some_bind, Option.pure_def] at h
                  injection h with h'
                  rw [← h']

/-- C5: for every stored conversation (whose record carries its own key,
as every store operation maintains), export produces the encoded record
and importing that blob under the same chatId into a fresh store succeeds
and reproduces the identical message sequence and lastUpdated. -/
theorem claim_C5_roundtrip (st : Store) (chatId : String) (ch : ChatHistory)
    (hget : mapGet st chatId = some ch) (hid : ch.chatId = chatId) :
    exportChatHistory st chatId = some (encodeChatHistory ch)
  ∧ importChatHistory [] chatId (encodeChatHistory ch) = (true, [(chatId, ch)]) := by
  constructor
  · unfold exportChatHistory
    rw [hget]
    rfl
  · unfold importChatHistory
    rw [decodeChatHistory_encodeChatHistory]
    simp [hid, mapSet]

/-- A two-message conversation used by the round-trip witness. -/
def demoHistory : ChatHistory :=
  ⟨"chat", [demoMsg "m1" 1 "A", demoMsg "m2" 2 "B"], 42⟩

/-- C5 witness: round trip of a concrete two-message conversation. -/
theorem claim_C5_roundtrip_witness :
    exportChatHistory [("chat", demoHistory)] "chat" = some (encodeChatHistory demoHistory)
  ∧ importChatHistory [] "chat" (encodeChatHistory demoHistory)
      = (true, [("chat", demoHistory)]) :=
  claim_C5_roundtrip [("chat", demoHistory)] "chat" demoHistory rfl rfl

/-- C6: whenever the blob's embedded chatId is not the target key, import
fails — the boolean result false is the code's ValidationError signal —
and the store, in particular the target's entry, is returned unchanged. -/
theorem claim_C6_import_mismatch (st : Store) (target : String) (blob : Json)
    (hmismatch : (jsonField blob "chatId").bind Json.asStr ≠ some target) :
    importChatHistory st target blob = (false, st) := by
  unfold importChatHistory
  cases hdec : decodeChatHistory blob with
  | none => rfl
  | some ch =>
      have hcid := decodeChatHistory_chatId hdec
      have hne : ch.chatId ≠ target := by
        intro he
        exact hmismatch (by rw [hcid, he])
      simp [hne]

/-- The conversation stored under chatA in the mismatch witness. -/
def demoHistoryA : ChatHistory := ⟨"chatA", [demoMsg "m1" 1 "A"], 5⟩

/-- A blob whose embedded chatId is chatB. -/
def demoHistoryB : ChatHistory := ⟨"chatB", [], 0⟩

/-- C6 witness: importing a chatB blob under target chatA fails and leaves
the chatA entry untouched. -/
theorem claim_C6_import_mismatch_witness :
    importChatHistory [("chatA", demoHistoryA)] "chatA" (encodeChatHistory demoHistoryB)
      = (false, [("chatA", demoHistoryA)]) :=
  claim_C6_import_mismatch [("chatA", demoHistoryA)] "chatA"
    (encodeChatHistory demoHistoryB) (by decide)

/-- C10: a successful import installs the decoded message sequence
verbatim: for every well-formed blob whose embedded chatId matches the
target, import returns true and the stored history afterwards is exactly
the blob's message list — in particular longer than any bound L it
exceeds, so the append-maintained maximum does not apply to imports. -/
theorem claim_C10_import_verbatim (st : Store) (L : Nat) (chatId : String)
    (ch : ChatHistory) (blob : Json)
    (hdec : decodeChatHistory blob = some ch) (hid : ch.chatId = chatId)
    (hlen : L < ch.messages.length) :
    (importChatHistory st chatId blob).1 = true
  ∧ getChatHistory (importChatHistory st chatId blob).2 chatId = ch.messages
  ∧ L < (getChatHistory (importChatHistory st chatId blob).2 chatId).length := by
  have himp : importChatHistory st chatId blob = (true, mapSet st chatId ch) := by
    unfold importChatHistory
    rw [hdec]
    simp [hid]
  rw [himp]
  refine ⟨rfl, ?_, ?_⟩
  · unfold getChatHistory
    rw [mapGet_mapSet_self]
  · unfold getChatHistory
    rw [mapGet_mapSet_self]
    exact hlen

/-- A five-message conversation, longer than the configured bound 3 used
in the import witness. -/
def demoHistory5 : ChatHistory :=
  ⟨"chat", [demoMsg "m1" 1 "A", demoMsg "m2" 2 "B", demoMsg "m3" 3 "C",
            demoMsg "m4" 4 "D", demoMsg "m5" 5 "E"], 99⟩

/-- C10 witness: importing a five-message blob with maximum length 3
stores all five messages. -/
theorem claim_C10_import_verbatim_witness :
    (importChatHistory [] "chat" (encodeChatHistory demoHistory5)).1 = true
  ∧ getChatHistory (importChatHistory [] "chat" (encodeChatHistory demoHistory5)).2 "chat"
      = demoHistory5.messages
  ∧ 3 < (getChatHistory (importChatHistory [] "chat" (encodeChatHistory demoHistory5)).2 "chat").length :=
  claim_C10_import_verbatim [] 3 "chat" demoHistory5 (encodeChatHistory demoHistory5)
    (decodeChatHistory_encodeChatHistory demoHistory5) rfl (by decide)

/-! Claim C1: single-flight processing. -/

/-- C1: when the busy flag is set, a further inbound message is dropped at
once — the store is untouched and the action trace is empty, so no
history append, no context build, no generation call and no send happen
for it, and the flag keeps its value; when the call is accepted, the
busy flag is false again after the call on every exit path — success,
generation failure, send failure, or an exception reaching the outer
catch — because the finally block clears it unconditionally. -/
theorem claim_C1_single_flight (maxLen : Nat) (now : Int) (busy : Bool)
    (st : Store) (m : WhatsAppMessage) (rt : Bool)
    (generate : String → List WhatsAppMessage → Except String String)
    (sendDelivers : String → String → Bool) :
    (busy = true →
      handleIncomingMessage maxLen now busy st m rt generate sendDelivers = (true, st, []))
  ∧ (busy = false →
      (handleIncomingMessage maxLen now busy st m rt generate sendDelivers).1 = false) := by
  constructor
  · intro h
    subst h
    rfl
  · intro h
    subst h
    by_cases hrt : rt = true
    · simp [handleIncomingMessage, hrt]
    · replace hrt : rt = false := by revert hrt; cases rt <;> simp
      cases hg : generate m.content
          (getConversationContext (addMessage maxLen now st m.«to» m) m.«to» 10) with
      | error e => simp [handleIncomingMessage, hrt, hg]
      | ok reply =>
          by_cases hs : sendDelivers m.«from» reply = true
          · simp [handleIncomingMessage, hrt, hg, hs]
          · replace hs : sendDelivers m.«from» reply = false := by
              revert hs; cases sendDelivers m.«from» reply <;> simp
            simp [handleIncomingMessage, hrt, hg, hs]

/-- A generator oracle that always succeeds. -/
def demoGen : String → List WhatsAppMessage → Except String String :=
  fun _ _ => Except.ok "demo reply"

/-- A transport oracle that always delivers. -/
def demoSend : String → String → Bool := fun _ _ => true

/-- C1 witness: with the busy flag set, the concrete call leaves the state
untouched with an empty trace; with it clear, the flag is false after the
call. -/
theorem claim_C1_single_flight_witness :
    handleIncomingMessage 50 0 true [] (demoMsg "m1" 1 "A") false demoGen demoSend
      = (true, [], [])
  ∧ (handleIncomingMessage 50 0 false [] (demoMsg "m1" 1 "A") false demoGen demoSend).1
      = false :=
  ⟨(claim_C1_single_flight 50 0 true [] (demoMsg "m1" 1 "A") false demoGen demoSend).1 rfl,
   (claim_C1_single_flight 50 0 false [] (demoMsg "m1" 1 "A") false demoGen demoSend).2 rfl⟩

end WhatsAppAgent
